import Mathlib

/-!
Verification of the CAD/PDF comparison viewer's coordinate-transform and
viewport engine.  The definitions below are a shallow embedding of the
JavaScript viewer components: the direct-compositing viewers
(ComparisonViewer), the GPU viewers (PixiViewer) and the minimap, with
coordinates modelled as rational numbers and JS `Math.round` modelled
exactly (round half toward positive infinity).
-/

namespace CadView

/-- JS `Math.round`: round half toward positive infinity. -/
def jsRound (q : ℚ) : ℤ := ⌊q + 1/2⌋

/-- A point of the plane (screen or content coordinates). -/
structure Pt where
  x : ℚ
  y : ℚ
deriving DecidableEq

/-- Viewport camera state: zoom scale and screen-space translation.
In the PixiViewer this is the main container's `scale.x = scale.y`,
`x` and `y`. -/
structure Transform where
  scale : ℚ
  translateX : ℚ
  translateY : ℚ
deriving DecidableEq

/-- The `world` computation appearing in the PixiViewer wheel and click
handlers: screen point to content point under the current transform.
This is also exactly the spec's `screenToContent(p, transform)
= (p - (translateX, translateY)) / scale`. -/
def screenToContent (p : Pt) (T : Transform) : Pt :=
  ⟨(p.x - T.translateX) / T.scale, (p.y - T.translateY) / T.scale⟩

/-- Screen position of a content point: container translation plus the
scaled content coordinate (how the PIXI container places its children
on screen). -/
def screenPosOf (T : Transform) (c : Pt) : Pt :=
  ⟨T.translateX + c.x * T.scale, T.translateY + c.y * T.scale⟩

/-- The recorded click measurement: rounded screen point and rounded
original-document point (`clickPos` in the viewers). -/
structure Measurement where
  screenX : ℤ
  screenY : ℤ
  originalX : ℤ
  originalY : ℤ
deriving DecidableEq

/-- Wheel-zoom step of the PixiViewer wheel listener: clamp the new scale
to [0.1, 10], compute the content point under the mouse, rescale, and
re-translate so that content point stays under the mouse. -/
def wheelZoom (T : Transform) (delta : ℚ) (mouse : Pt) : Transform :=
  let newScale := max (1/10) (min 10 (T.scale * delta))
  let world := screenToContent mouse T
  { scale := newScale
    translateX := mouse.x - world.x * newScale
    translateY := mouse.y - world.y * newScale }

/-- Measurement recorded by the PixiViewer stage click handler: screen
point rounded, content (world) point divided by the scaling factor and
rounded. -/
def gpuClickMeasurement (T : Transform) (sf : ℚ) (g : Pt) : Measurement :=
  let world := screenToContent g T
  { screenX := jsRound g.x
    screenY := jsRound g.y
    originalX := jsRound (world.x / sf)
    originalY := jsRound (world.y / sf) }

/-- Measurement recorded by the direct-compositing viewer's `handleClick`:
the click offset within the CSS-transformed content element is divided by
the scaling factor directly.  The element's on-screen top-left corner
carries the pan translation (the bounding client rect of the transformed
element), so the offset is `client - translate`, measured in on-screen
pixels. -/
def directClickMeasurement (T : Transform) (sf : ℚ) (client : Pt) : Measurement :=
  let x := client.x - T.translateX
  let y := client.y - T.translateY
  { screenX := jsRound x
    screenY := jsRound y
    originalX := jsRound (x / sf)
    originalY := jsRound (y / sf) }

/-- Guarded click handler of the direct-compositing viewers: a falsy
`data.scaling_factor` (absent or zero) returns without touching the
previous measurement. -/
def handleClick (sf : Option ℚ) (T : Transform) (prev : Option Measurement)
    (client : Pt) : Option Measurement :=
  match sf with
  | none => prev
  | some s => if s = 0 then prev else some (directClickMeasurement T s client)

/-- Original-document point recorded by the direct-compositing viewer. -/
def directClickOriginal (T : Transform) (sf : ℚ) (p : Pt) : ℤ × ℤ :=
  ((directClickMeasurement T sf p).originalX, (directClickMeasurement T sf p).originalY)

/-- Original-document point recorded by the GPU viewer. -/
def gpuClickOriginal (T : Transform) (sf : ℚ) (p : Pt) : ℤ × ℤ :=
  ((gpuClickMeasurement T sf p).originalX, (gpuClickMeasurement T sf p).originalY)

/-- The mapping the spec claims for every backend: screen to content via
the viewport transform, then content to original via the scaling factor,
rounded component-wise. -/
def specClickOriginal (T : Transform) (sf : ℚ) (p : Pt) : ℤ × ℤ :=
  let c := screenToContent p T
  (jsRound (c.x / sf), jsRound (c.y / sf))

/-- C1: the GPU click mapping agrees with the spec formula, but the
direct-compositing viewer records `round(rawOffset / sf)` without dividing
by the viewport scale: at scale 2, translate 0, scaling factor 2, a click
at screen (100, 100) is recorded as original (50, 50) by the direct
viewer while the spec formula (and the GPU viewer) give (25, 25) — the
mapping is not the same function in every strategy. -/
theorem C1_divergence :
    gpuClickOriginal ⟨2, 0, 0⟩ 2 ⟨100, 100⟩ = specClickOriginal ⟨2, 0, 0⟩ 2 ⟨100, 100⟩ ∧
    directClickOriginal ⟨2, 0, 0⟩ 2 ⟨100, 100⟩ = (50, 50) ∧
    specClickOriginal ⟨2, 0, 0⟩ 2 ⟨100, 100⟩ = (25, 25) ∧
    directClickOriginal ⟨2, 0, 0⟩ 2 ⟨100, 100⟩ ≠ specClickOriginal ⟨2, 0, 0⟩ 2 ⟨100, 100⟩ := by
  refine ⟨?_, ?_, ?_, ?_⟩ <;>
    norm_num [gpuClickOriginal, directClickOriginal, specClickOriginal,
      gpuClickMeasurement, directClickMeasurement, screenToContent, jsRound]

/-- C2: anchor-preserving wheel zoom.  The wheel listener computes
`newScale = clamp(scale * f, 0.1, 10)` and re-translates through the
world point under the mouse, so the content point under the anchor is
unchanged: `screenToContent(p, T) = screenToContent(p, wheelZoom T f p)`
exactly, for any transform whose scale is within [0.1, 10]. -/
theorem C2_zoom_anchor_invariance (T : Transform) (f : ℚ) (p : Pt)
    (h1 : 1/10 ≤ T.scale) (h2 : T.scale ≤ 10) :
    (wheelZoom T f p).scale = max (1/10) (min 10 (T.scale * f)) ∧
    screenToContent p (wheelZoom T f p) = screenToContent p T := by
  have hs : (0 : ℚ) < T.scale := lt_of_lt_of_le (by norm_num) h1
  have hns : (0 : ℚ) < max (1/10) (min 10 (T.scale * f)) :=
    lt_of_lt_of_le (by norm_num) (le_max_left _ _)
  refine ⟨rfl, ?_⟩
  simp only [wheelZoom, screenToContent, Pt.mk.injEq]
  constructor <;> (field_simp; ring)

/-- Witness for C2 at a concrete transform, factor and anchor. -/
theorem C2_zoom_anchor_invariance_witness :
    (1/10 : ℚ) ≤ 1 ∧ (1 : ℚ) ≤ 10 ∧
    screenToContent ⟨50, 50⟩ (wheelZoom ⟨1, 0, 0⟩ 2 ⟨50, 50⟩) =
      screenToContent ⟨50, 50⟩ ⟨1, 0, 0⟩ :=
  ⟨by norm_num, by norm_num,
    (C2_zoom_anchor_invariance ⟨1, 0, 0⟩ 2 ⟨50, 50⟩ (by norm_num) (by norm_num)).2⟩

/-- Mutable interaction state captured by the PixiViewer pointer
listeners: the drag flag, the recorded drag origin, the container
position at drag start, the container transform and the last recorded
measurement. -/
structure ViewerState where
  transform : Transform
  isDragging : Bool
  dragStart : Pt
  containerStart : Pt
  clickPos : Option Measurement
deriving DecidableEq

/-- Pointer events handled by the PixiViewer stage (the browser fires
`click` after `pointerup` for a press-and-release on the canvas). -/
inductive Ev
  | down (p : Pt)
  | move (p : Pt)
  | up
  | click (p : Pt)

/-- One step of the PixiViewer pointer state machine, from the
`pointerdown` / `pointermove` / `pointerup` / `click` listeners: the click
listener returns early when the horizontal distance from the drag origin
exceeds 5 screen pixels, otherwise it records a measurement. -/
def step (sf : ℚ) (s : ViewerState) : Ev → ViewerState
  | .down p =>
    { s with isDragging := true, dragStart := p
             containerStart := ⟨s.transform.translateX, s.transform.translateY⟩ }
  | .move p =>
    if s.isDragging then
      { s with transform :=
          { s.transform with
              translateX := s.containerStart.x + (p.x - s.dragStart.x)
              translateY := s.containerStart.y + (p.y - s.dragStart.y) } }
    else s
  | .up => { s with isDragging := false }
  | .click p =>
    if 5 < |p.x - s.dragStart.x| then s
    else { s with clickPos := some (gpuClickMeasurement s.transform sf p) }

/-- Run a sequence of pointer events and count how many click
measurements are produced (clicks whose guard passes). -/
def runCount (sf : ℚ) : ViewerState → List Ev → ViewerState × ℕ
  | s, [] => (s, 0)
  | s, e :: es =>
    let c : ℕ :=
      match e with
      | .click p => if 5 < |p.x - s.dragStart.x| then 0 else 1
      | _ => 0
    let r := runCount sf (step sf s e) es
    (r.1, c + r.2)

/-- The event sequence of a drag from `a` to `b` followed by release:
pointerdown at `a`, pointermove to `b`, pointerup, then the browser click
at `b`. -/
def dragRelease (a b : Pt) : List Ev :=
  [Ev.down a, Ev.move b, Ev.up, Ev.click b]

/-- Squared Euclidean distance between two points. -/
def euclidDistSq (a b : Pt) : ℚ := (b.x - a.x) ^ 2 + (b.y - a.y) ^ 2

/-- A concrete idle viewer state. -/
def idleState : ViewerState :=
  ⟨⟨1, 0, 0⟩, false, ⟨0, 0⟩, ⟨0, 0⟩, none⟩

/-- C3 counterexample: a drag from (100,100) to (100,110) moves 10 screen
pixels (squared distance 100 at least 25), so the claim requires zero
measurements, yet the click guard only tests the horizontal component and
one measurement is produced. -/
theorem C3_counterexample :
    25 ≤ euclidDistSq ⟨100, 100⟩ ⟨100, 110⟩ ∧
    (runCount 1 idleState (dragRelease ⟨100, 100⟩ ⟨100, 110⟩)).2 = 1 := by
  constructor
  · norm_num [euclidDistSq]
  · norm_num [runCount, dragRelease, step, idleState]

/-- C3 amended: a pointerdown at `a` followed by a release and click at
`b` produces exactly one measurement when the horizontal displacement
satisfies |b.x - a.x| LE 5 and zero when it exceeds 5; vertical movement
is ignored.  In particular the drag (100,100) to (103,101) yields one
measurement and (100,100) to (110,100) yields zero. -/
theorem C3_click_drag_disambiguation :
    (∀ (sf : ℚ) (s : ViewerState) (a b : Pt),
      (runCount sf s (dragRelease a b)).2 = if 5 < |b.x - a.x| then 0 else 1) ∧
    (runCount 1 idleState (dragRelease ⟨100, 100⟩ ⟨103, 101⟩)).2 = 1 ∧
    (runCount 1 idleState (dragRelease ⟨100, 100⟩ ⟨110, 100⟩)).2 = 0 := by
  refine ⟨fun sf s a b => ?_, ?_, ?_⟩
  · simp [runCount, dragRelease, step]
  · norm_num [runCount, dragRelease, step, idleState]
  · norm_num [runCount, dragRelease, step, idleState]

/-- Zoom-in button of the PixiViewer: multiply the scale by 1.3, clamped
above at 10; the container position is not touched. -/
def handleZoomIn (T : Transform) : Transform :=
  { T with scale := min 10 (T.scale * (13/10)) }

/-- Zoom-out button of the PixiViewer: multiply the scale by 0.7, clamped
below at 0.1; the container position is not touched. -/
def handleZoomOut (T : Transform) : Transform :=
  { T with scale := max (1/10) (T.scale * (7/10)) }

/-- Fit-to-screen transform used by `handleResetView` and the initial
centering in `initPixi`: scale the content to fit the viewport area below
the 60-pixel header with a 0.9 margin and center it.  The computed scale
is not clamped. -/
def fitToScreen (screenW screenH contentW contentH : ℚ) : Transform :=
  let scale := min (screenW / contentW) ((screenH - 60) / contentH) * (9/10)
  { scale := scale
    translateX := (screenW - contentW * scale) / 2
    translateY := 60 + (screenH - 60 - contentH * scale) / 2 }

/-- Viewport operations other than fit-to-screen: wheel zoom, the two
zoom buttons and drag panning (`pointermove` sets the translation to the
drag-start container position plus the pointer delta). -/
inductive ViewOp
  | wheel (delta : ℚ) (mouse : Pt)
  | zoomIn
  | zoomOut
  | pan (containerStart delta : Pt)

/-- Apply one viewport operation. -/
def applyOp (T : Transform) : ViewOp → Transform
  | .wheel d m => wheelZoom T d m
  | .zoomIn => handleZoomIn T
  | .zoomOut => handleZoomOut T
  | .pan cs d => { T with translateX := cs.x + d.x, translateY := cs.y + d.y }

/-- Apply a sequence of viewport operations. -/
def applyOps (T : Transform) (ops : List ViewOp) : Transform :=
  ops.foldl applyOp T

/-- Each single wheel, button-zoom or pan operation keeps the scale
within [0.1, 10] when it starts there. -/
lemma applyOp_scale_bounds (T : Transform) (op : ViewOp)
    (h1 : 1/10 ≤ T.scale) (h2 : T.scale ≤ 10) :
    1/10 ≤ (applyOp T op).scale ∧ (applyOp T op).scale ≤ 10 := by
  cases op with
  | wheel d m =>
    constructor
    · exact le_max_left _ _
    · exact max_le (by norm_num) (min_le_left _ _)
  | zoomIn =>
    constructor
    · exact le_min (by norm_num) (by linarith)
    · exact min_le_left _ _
  | zoomOut =>
    constructor
    · exact le_max_left _ _
    · exact max_le (by norm_num) (by linarith)
  | pan cs d => exact ⟨h1, h2⟩

/-- C4 counterexample: the fit-to-screen operation does not clamp its
scale: fitting 10 by 10 content into an 800 by 660 viewport produces
scale 54, outside [0.1, 10]. -/
theorem C4_counterexample :
    (fitToScreen 800 660 10 10).scale = 54 ∧ ¬ (fitToScreen 800 660 10 10).scale ≤ 10 := by
  norm_num [fitToScreen]

/-- C4 amended: starting from any transform with scale in [0.1, 10],
every sequence of wheel zooms, button zooms and pans keeps the scale in
[0.1, 10]; fit-to-screen is excluded because it sets an unclamped fit
scale. -/
theorem C4_scale_invariant (T : Transform)
    (h1 : 1/10 ≤ T.scale) (h2 : T.scale ≤ 10) (ops : List ViewOp) :
    1/10 ≤ (applyOps T ops).scale ∧ (applyOps T ops).scale ≤ 10 := by
  induction ops generalizing T with
  | nil => exact ⟨h1, h2⟩
  | cons op rest ih =>
    have h := applyOp_scale_bounds T op h1 h2
    exact ih (applyOp T op) h.1 h.2

/-- Witness for C4 at a concrete start state and operation sequence. -/
theorem C4_scale_invariant_witness :
    (1/10 : ℚ) ≤ 1 ∧ (1 : ℚ) ≤ 10 ∧
    1/10 ≤ (applyOps ⟨1, 0, 0⟩ [ViewOp.zoomIn, ViewOp.zoomOut]).scale ∧
    (applyOps ⟨1, 0, 0⟩ [ViewOp.zoomIn, ViewOp.zoomOut]).scale ≤ 10 := by
  refine ⟨by norm_num, by norm_num, ?_, ?_⟩
  · exact (C4_scale_invariant ⟨1, 0, 0⟩ (by norm_num) (by norm_num) _).1
  · exact (C4_scale_invariant ⟨1, 0, 0⟩ (by norm_num) (by norm_num) _).2

/-- A rectangle in minimap percentage coordinates. -/
structure Rect where
  left : ℚ
  top : ℚ
  width : ℚ
  height : ℚ
deriving DecidableEq

/-- `updateViewportBounds` of the PixiViewer: normalized visible region
of the content, scaled to percent, with the origin floored at 0 and the
extent capped at 100. -/
def updateViewportBounds (screenW screenH baseW baseH : ℚ) (T : Transform) : Rect :=
  let vx := -T.translateX / (baseW * T.scale)
  let vy := -(T.translateY - 60) / (baseH * T.scale)
  let vw := screenW / (baseW * T.scale)
  let vh := (screenH - 60) / (baseH * T.scale)
  { left := max 0 (vx * 100)
    top := max 0 (vy * 100)
    width := min 100 (vw * 100)
    height := min 100 (vh * 100) }

/-- `viewportStyle` of the MiniMap component: clamp the origin to
[0, 100 - rawExtent] and force each displayed extent into [5, 100]. -/
def viewportStyle (b : Rect) : Rect :=
  { left := max 0 (min (100 - b.width) b.left)
    top := max 0 (min (100 - b.height) b.top)
    width := max 5 (min 100 b.width)
    height := max 5 (min 100 b.height) }

/-- C5 counterexample: at scale 10 (within [0.1, 10]) with an 800-wide
base image, an 80-pixel-wide viewport and translation -80000, the raw
extent is 1 percent; the origin is clamped against the raw extent (to
99) while the displayed width is forced up to the 5 percent minimum, so
the rectangle's right edge reaches 104 percent — outside [0,1] x [0,1]. -/
theorem C5_counterexample :
    ((1/10 : ℚ) ≤ 10 ∧ (10 : ℚ) ≤ 10) ∧
    (viewportStyle (updateViewportBounds 80 660 800 600 ⟨10, -80000, 60⟩)).left = 99 ∧
    (viewportStyle (updateViewportBounds 80 660 800 600 ⟨10, -80000, 60⟩)).width = 5 ∧
    100 < (viewportStyle (updateViewportBounds 80 660 800 600 ⟨10, -80000, 60⟩)).left +
      (viewportStyle (updateViewportBounds 80 660 800 600 ⟨10, -80000, 60⟩)).width := by
  norm_num [viewportStyle, updateViewportBounds]

/-- C5 amended: the displayed extents always lie in [5, 100] and the
origin is nonnegative; whenever each raw extent is at least the 5
percent minimum the whole rectangle lies inside [0,1] x [0,1]
(right and bottom edges at most 100 percent). -/
theorem C5_minimap_rect_bounds (screenW screenH baseW baseH : ℚ) (T : Transform)
    (hw : 5 ≤ (updateViewportBounds screenW screenH baseW baseH T).width)
    (hh : 5 ≤ (updateViewportBounds screenW screenH baseW baseH T).height) :
    5 ≤ (viewportStyle (updateViewportBounds screenW screenH baseW baseH T)).width ∧
    (viewportStyle (updateViewportBounds screenW screenH baseW baseH T)).width ≤ 100 ∧
    5 ≤ (viewportStyle (updateViewportBounds screenW screenH baseW baseH T)).height ∧
    (viewportStyle (updateViewportBounds screenW screenH baseW baseH T)).height ≤ 100 ∧
    0 ≤ (viewportStyle (updateViewportBounds screenW screenH baseW baseH T)).left ∧
    (viewportStyle (updateViewportBounds screenW screenH baseW baseH T)).left +
      (viewportStyle (updateViewportBounds screenW screenH baseW baseH T)).width ≤ 100 ∧
    0 ≤ (viewportStyle (updateViewportBounds screenW screenH baseW baseH T)).top ∧
    (viewportStyle (updateViewportBounds screenW screenH baseW baseH T)).top +
      (viewportStyle (updateViewportBounds screenW screenH baseW baseH T)).height ≤ 100 := by
  set b := updateViewportBounds screenW screenH baseW baseH T with hb
  have hwcap : b.width ≤ 100 := by
    rw [hb]; exact min_le_left _ _
  have hhcap : b.height ≤ 100 := by
    rw [hb]; exact min_le_left _ _
  have hwidth : (viewportStyle b).width = b.width := by
    simp only [viewportStyle]
    rw [min_eq_right hwcap, max_eq_right hw]
  have hheight : (viewportStyle b).height = b.height := by
    simp only [viewportStyle]
    rw [min_eq_right hhcap, max_eq_right hh]
  refine ⟨?_, ?_, ?_, ?_, ?_, ?_, ?_, ?_⟩
  · rw [hwidth]; exact hw
  · rw [hwidth]; exact hwcap
  · rw [hheight]; exact hh
  · rw [hheight]; exact hhcap
  · exact le_max_left _ _
  · rw [hwidth]
    have : (viewportStyle b).left ≤ 100 - b.width := by
      simp only [viewportStyle]
      exact max_le (by linarith) (min_le_left _ _)
    linarith
  · exact le_max_left _ _
  · rw [hheight]
    have : (viewportStyle b).top ≤ 100 - b.height := by
      simp only [viewportStyle]
      exact max_le (by linarith) (min_le_left _ _)
    linarith

/-- Witness for C5 at a concrete viewport whose raw extents are above
the minimum: content 1000 x 800 at scale 1 in an 800 x 660 viewport. -/
theorem C5_minimap_rect_bounds_witness :
    5 ≤ (updateViewportBounds 800 660 1000 800 ⟨1, 0, 60⟩).width ∧
    5 ≤ (updateViewportBounds 800 660 1000 800 ⟨1, 0, 60⟩).height ∧
    0 ≤ (viewportStyle (updateViewportBounds 800 660 1000 800 ⟨1, 0, 60⟩)).left ∧
    (viewportStyle (updateViewportBounds 800 660 1000 800 ⟨1, 0, 60⟩)).left +
      (viewportStyle (updateViewportBounds 800 660 1000 800 ⟨1, 0, 60⟩)).width ≤ 100 := by
  have h := C5_minimap_rect_bounds 800 660 1000 800 ⟨1, 0, 60⟩
    (by norm_num [updateViewportBounds]) (by norm_num [updateViewportBounds])
  exact ⟨by norm_num [updateViewportBounds], by norm_num [updateViewportBounds],
    h.2.2.2.2.1, h.2.2.2.2.2.1⟩

/-- The single command the direct-compositing viewer can issue from a
minimap click: its `handleMiniMapClick` calls `centerView()` and nothing
else. -/
inductive TransformCommand
  | centerView
deriving DecidableEq

/-- `handleMiniMapClick` of the direct-compositing viewer: the click
percentages are received but not used; the handler always issues the
same center-view command. -/
def handleMiniMapClick (percentX percentY : ℚ) : TransformCommand :=
  TransformCommand.centerView

/-- `handleMiniMapNavigate` of the PixiViewer: keep the scale and place
the container so that content fraction (qx, qy) of the base image sits at
the center of the viewport area below the 60-pixel header. -/
def handleMiniMapNavigate (screenW screenH baseW baseH : ℚ) (T : Transform)
    (qx qy : ℚ) : Transform :=
  { scale := T.scale
    translateX := screenW / 2 - qx * baseW * T.scale
    translateY := (screenH - 60) / 2 + 60 - qy * baseH * T.scale }

/-- The arguments the MiniMap component passes to its `onNavigate`
callback for a click at normalized point `q`: the normalized coordinates
multiplied by 100 (percentages). -/
def miniMapClickArgs (q : Pt) : ℚ × ℚ :=
  (q.x * 100, q.y * 100)

/-- C6 counterexample.  First conjunct: in the direct-compositing viewer
two distinct minimap clicks issue the identical command, so the
resulting translation cannot depend on the click point.  Remaining
conjuncts: in the GPU viewer a normalized click at (1/2, 1/2) on 1000 x
800 content at scale 1 in an 800 x 660 viewport is forwarded as
percentages, and the content point q * contentSize = (500, 400) ends up
at screen (-49100, -39240), not at the viewport center (400, 360). -/
theorem C6_counterexample :
    (handleMiniMapClick 20 20 = handleMiniMapClick 80 80 ∧ (20, 20) ≠ ((80, 80) : ℚ × ℚ)) ∧
    screenPosOf
      (handleMiniMapNavigate 800 660 1000 800 ⟨1, 0, 0⟩
        (miniMapClickArgs ⟨1/2, 1/2⟩).1 (miniMapClickArgs ⟨1/2, 1/2⟩).2)
      ⟨500, 400⟩ = ⟨-49100, -39240⟩ ∧
    (⟨-49100, -39240⟩ : Pt) ≠ ⟨400, 360⟩ := by
  refine ⟨⟨rfl, by norm_num⟩, ?_, ?_⟩
  · norm_num [screenPosOf, handleMiniMapNavigate, miniMapClickArgs]
  · intro h
    have hx := congrArg Pt.x h
    norm_num at hx

/-- C6 amended: for the argument `u` the GPU handler actually receives,
`handleMiniMapNavigate` preserves the scale, places content point
(u.x * baseW, u.y * baseH) at the center of the sub-header viewport
area, and distinct arguments give distinct translations whenever
baseW * scale is nonzero.  Since the MiniMap passes u = 100 * q for a
normalized click q, the content point centred on screen is
100 * q * contentSize, and the direct-compositing viewer ignores the
click point altogether. -/
theorem C6_minimap_recentre (screenW screenH baseW baseH : ℚ) (T : Transform)
    (u v : Pt) (hne : u.x ≠ v.x) (hnz : baseW * T.scale ≠ 0) :
    (handleMiniMapNavigate screenW screenH baseW baseH T u.x u.y).scale = T.scale ∧
    screenPosOf (handleMiniMapNavigate screenW screenH baseW baseH T u.x u.y)
      ⟨u.x * baseW, u.y * baseH⟩ = ⟨screenW / 2, (screenH - 60) / 2 + 60⟩ ∧
    (handleMiniMapNavigate screenW screenH baseW baseH T u.x u.y).translateX ≠
      (handleMiniMapNavigate screenW screenH baseW baseH T v.x v.y).translateX := by
  refine ⟨rfl, ?_, ?_⟩
  · simp only [screenPosOf, handleMiniMapNavigate, Pt.mk.injEq]
    constructor <;> ring
  · simp only [handleMiniMapNavigate]
    intro h
    apply hne
    have h2 : u.x * (baseW * T.scale) = v.x * (baseW * T.scale) := by linarith
    exact mul_right_cancel₀ hnz h2

/-- Witness for C6 at concrete distinct arguments. -/
theorem C6_minimap_recentre_witness :
    (1 : ℚ) / 4 ≠ 3 / 4 ∧ (1000 : ℚ) * 1 ≠ 0 ∧
    screenPosOf (handleMiniMapNavigate 800 660 1000 800 ⟨1, 0, 0⟩ (1/4) (1/4))
      ⟨(1/4) * 1000, (1/4) * 800⟩ = ⟨800 / 2, (660 - 60) / 2 + 60⟩ := by
  refine ⟨by norm_num, by norm_num, ?_⟩
  exact (C6_minimap_recentre 800 660 1000 800 ⟨1, 0, 0⟩ ⟨1/4, 1/4⟩ ⟨3/4, 3/4⟩
    (by norm_num) (by norm_num)).2.1

/-- React state of the PixiViewer relevant to a page change: the
container transform, the recorded click measurement and the loading
flag. -/
structure GpuViewer where
  transform : Transform
  clickPos : Option Measurement
  isLoading : Bool
deriving DecidableEq

/-- Re-initialization run when a new SessionResult arrives (the
`initPixi` effect keyed on the base image URL): the old PIXI application
is destroyed and a fresh container is built at the fit-to-screen
transform; `clickPos` is never written by this effect, so the previous
measurement is carried over. -/
def pageChangeReinit (screenW screenH baseW baseH : ℚ) (s : GpuViewer) : GpuViewer :=
  { transform := fitToScreen screenW screenH baseW baseH
    clickPos := s.clickPos
    isLoading := false }

/-- C7 counterexample: a page change on a viewer holding a measurement
keeps that measurement; the measurement state afterwards is the previous
page's measurement, not empty. -/
theorem C7_counterexample :
    (pageChangeReinit 800 660 1000 800
        ⟨⟨2, 5, 7⟩, some ⟨1, 2, 3, 4⟩, false⟩).clickPos = some ⟨1, 2, 3, 4⟩ ∧
    (some (⟨1, 2, 3, 4⟩ : Measurement)) ≠ none := by
  exact ⟨rfl, by simp⟩

/-- C7 amended: a page change rebuilds the viewport at the fit-to-screen
defaults — the scale is the 0.9-margin fit scale and the content center
lands at the center of the sub-header viewport area — but the pending
click measurement is retained, not cleared. -/
theorem C7_page_change_reset (screenW screenH baseW baseH : ℚ) (s : GpuViewer) :
    (pageChangeReinit screenW screenH baseW baseH s).clickPos = s.clickPos ∧
    (pageChangeReinit screenW screenH baseW baseH s).transform.scale =
      min (screenW / baseW) ((screenH - 60) / baseH) * (9/10) ∧
    screenPosOf (pageChangeReinit screenW screenH baseW baseH s).transform
      ⟨baseW / 2, baseH / 2⟩ = ⟨screenW / 2, 60 + (screenH - 60) / 2⟩ := by
  refine ⟨rfl, rfl, ?_⟩
  simp only [pageChangeReinit, fitToScreen, screenPosOf, Pt.mk.injEq]
  constructor <;> ring

/-- Per-layer load outcomes of the `initPixi` asset sequence, as a
function of which individual loads succeed: each overlay failure is
caught inside the loop and skipped; a base failure is caught by the
surrounding try/catch, which only logs and clears the loading flag. -/
structure PixiInitState where
  baseLoaded : Bool
  redLoaded : Bool
  greenLoaded : Bool
  blueLoaded : Bool
  isLoading : Bool
deriving DecidableEq

/-- The `initPixi` load sequence of the PixiViewer: if the base texture
loads, each overlay is attached iff its own load succeeds; if the base
texture fails, the catch block runs (console.error, setIsLoading(false))
and nothing is attached.  The component has no error state field. -/
def initPixi (base red green blue : Bool) : PixiInitState :=
  if base then
    { baseLoaded := true, redLoaded := red, greenLoaded := green
      blueLoaded := blue, isLoading := false }
  else
    { baseLoaded := false, redLoaded := false, greenLoaded := false
      blueLoaded := false, isLoading := false }

/-- What the PixiViewer renders over the canvas region: the loading
spinner while `isLoading`, otherwise the normal viewer chrome.  There is
no error branch in the component. -/
inductive ViewerUI
  | loadingOverlay
  | viewerChrome
deriving DecidableEq

/-- UI selection of the PixiViewer after initialization. -/
def pixiViewerUI (s : PixiInitState) : ViewerUI :=
  if s.isLoading then ViewerUI.loadingOverlay else ViewerUI.viewerChrome

/-- C8 counterexample: when the base-layer load fails (with all overlay
loads fine), the resulting state records no layers and no error, and the
viewer renders the same normal chrome as a fully successful
initialization — no session-level error state is entered. -/
theorem C8_counterexample :
    initPixi false true true true = ⟨false, false, false, false, false⟩ ∧
    pixiViewerUI (initPixi false true true true) = ViewerUI.viewerChrome ∧
    pixiViewerUI (initPixi false true true true) = pixiViewerUI (initPixi true true true true) := by
  refine ⟨rfl, rfl, rfl⟩

/-- C8 amended: when the base layer loads, a failed overlay load is
dropped while the base and every successfully loaded overlay remain
attached and initialization completes; when the base layer fails, the
catch block leaves no layer attached and clears the loading flag, but
records no session-level error state — the normal viewer chrome is
rendered over an empty canvas. -/
theorem C8_load_failure_handling :
    (∀ red green blue : Bool,
      initPixi true red green blue =
        ⟨true, red, green, blue, false⟩) ∧
    (∀ red green blue : Bool,
      initPixi false red green blue = ⟨false, false, false, false, false⟩ ∧
      pixiViewerUI (initPixi false red green blue) = ViewerUI.viewerChrome) := by
  exact ⟨fun _ _ _ => rfl, fun _ _ _ => ⟨rfl, rfl⟩⟩

/-- C9 counterexample.  First conjuncts: the zoom-in button at scale 1
with translation (100, 100) leaves the translation unchanged, yet the
content point under the screen origin changes (from -100 to -1000/13 in
x), so button zoom is not anchored at the screen origin.  Last conjunct:
from scale 1/20 the zoom-in button produces scale 13/200, below 0.1, so
its result is not clamped to [0.1, 10]. -/
theorem C9_counterexample :
    handleZoomIn ⟨1, 100, 100⟩ = ⟨13/10, 100, 100⟩ ∧
    screenToContent ⟨0, 0⟩ ⟨1, 100, 100⟩ = ⟨-100, -100⟩ ∧
    screenToContent ⟨0, 0⟩ (handleZoomIn ⟨1, 100, 100⟩) = ⟨-1000/13, -1000/13⟩ ∧
    screenToContent ⟨0, 0⟩ (handleZoomIn ⟨1, 100, 100⟩) ≠
      screenToContent ⟨0, 0⟩ ⟨1, 100, 100⟩ ∧
    (handleZoomIn ⟨1/20, 0, 0⟩).scale < 1/10 := by
  refine ⟨?_, ?_, ?_, ?_, ?_⟩
  · simp only [handleZoomIn, Transform.mk.injEq]
    norm_num
  · norm_num [screenToContent]
  · norm_num [screenToContent, handleZoomIn]
  · intro h
    have hx := congrArg Pt.x h
    norm_num [screenToContent, handleZoomIn] at hx
  · norm_num [handleZoomIn]

/-- C9 amended: the zoom-in button multiplies the scale by 1.3 clamped
above at 10 (no lower clamp) and the zoom-out button multiplies it by
0.7 clamped below at 0.1 (no upper clamp); both leave the translation
unchanged, so the screen point held fixed by either button is the
content origin's screen position (translateX, translateY), not the
screen origin. -/
theorem C9_button_zoom_frame (T : Transform) :
    (handleZoomIn T).scale = min 10 (T.scale * (13/10)) ∧
    (handleZoomOut T).scale = max (1/10) (T.scale * (7/10)) ∧
    (handleZoomIn T).translateX = T.translateX ∧
    (handleZoomIn T).translateY = T.translateY ∧
    (handleZoomOut T).translateX = T.translateX ∧
    (handleZoomOut T).translateY = T.translateY ∧
    screenPosOf (handleZoomIn T) ⟨0, 0⟩ = screenPosOf T ⟨0, 0⟩ ∧
    screenPosOf (handleZoomOut T) ⟨0, 0⟩ = screenPosOf T ⟨0, 0⟩ := by
  refine ⟨rfl, rfl, rfl, rfl, rfl, rfl, ?_, ?_⟩ <;>
    simp [screenPosOf, handleZoomIn, handleZoomOut]

/-- C10: with a falsy scaling factor the direct-compositing click handler
returns early: no measurement is produced, the previous one is untouched
and the division by the scaling factor is never reached. -/
theorem C10_falsy_scaling_factor_guard (sf : Option ℚ) (T : Transform)
    (prev : Option Measurement) (client : Pt)
    (h : sf = none ∨ sf = some 0) :
    handleClick sf T prev client = prev := by
  rcases h with h | h <;> subst h <;> simp [handleClick]

/-- Witness for C10 at an absent scaling factor and a concrete prior
measurement. -/
theorem C10_falsy_scaling_factor_guard_witness :
    handleClick none ⟨1, 0, 0⟩ (some ⟨1, 2, 3, 4⟩) ⟨30, 40⟩ = some ⟨1, 2, 3, 4⟩ :=
  C10_falsy_scaling_factor_guard none ⟨1, 0, 0⟩ (some ⟨1, 2, 3, 4⟩) ⟨30, 40⟩ (Or.inl rfl)

end CadView
